import Mathlib

/-!
Shallow embedding of the Saju (Four Pillars) calendrical engine from
`saju_engine_final.py`, together with theorems settling the spec claims.

Conventions of the embedding:
* Civil dates/datetimes are proleptic-Gregorian, matching Python's
  `datetime.date` / `datetime.datetime` restricted to minute precision
  (every datetime constructed in the repository — KASI table entries and
  UI-collected birth instants — has second = microsecond = 0, and all
  carry the single fixed KST offset, so chronological comparison is
  comparison of minute counts).
* Stems (천간) are indices 0..9 into CHEONGAN, branches (지지) indices
  0..11 into JIJI; a two-character ganji string is the pair of indices.
* Python float expressions `total_seconds()/3600 <= 2` and
  `floor((total_seconds()/86400)/3)` are modelled exactly over minutes
  (`|Δmin| ≤ 120`, `|Δmin| / 4320`): with minute-granularity inputs the
  real-valued quantities are at least 1/4320 away from the decision
  boundaries except when exactly on them, where the IEEE doubles involved
  (multiples of 60 s divided by 3600 resp. 86400, then by 3) are computed
  exactly, so the float comparisons agree with the integer ones.
-/

namespace Saju2026

/-! ## Civil calendar model (proleptic Gregorian, as Python `datetime`) -/

structure Date where
  year : Nat
  month : Nat
  day : Nat
deriving DecidableEq, Repr

structure DateTime where
  year : Nat
  month : Nat
  day : Nat
  hour : Nat
  minute : Nat
deriving DecidableEq, Repr

def DateTime.date (dt : DateTime) : Date :=
  ⟨dt.year, dt.month, dt.day⟩

def isLeapYear (y : Nat) : Bool :=
  (y % 4 == 0 && y % 100 != 0) || (y % 400 == 0)

def daysInMonth (y m : Nat) : Nat :=
  match m with
  | 1 => 31
  | 2 => if isLeapYear y then 29 else 28
  | 3 => 31
  | 4 => 30
  | 5 => 31
  | 6 => 30
  | 7 => 31
  | 8 => 31
  | 9 => 30
  | 10 => 31
  | 11 => 30
  | 12 => 31
  | _ => 0

def daysBeforeMonth (y m : Nat) : Nat :=
  let leap : Nat := if isLeapYear y then 1 else 0
  match m with
  | 1 => 0
  | 2 => 31
  | 3 => 59 + leap
  | 4 => 90 + leap
  | 5 => 120 + leap
  | 6 => 151 + leap
  | 7 => 181 + leap
  | 8 => 212 + leap
  | 9 => 243 + leap
  | 10 => 273 + leap
  | 11 => 304 + leap
  | 12 => 334 + leap
  | _ => 0

/-- Day number of a date in the proleptic Gregorian calendar with
0001-01-01 ↦ 1, exactly Python's `date.toordinal`. -/
def Date.toOrdinal (d : Date) : Nat :=
  365 * (d.year - 1) + (d.year - 1) / 4 - (d.year - 1) / 100 + (d.year - 1) / 400
    + daysBeforeMonth d.year d.month + d.day

def Date.Valid (d : Date) : Prop :=
  1 ≤ d.year ∧ 1 ≤ d.month ∧ d.month ≤ 12 ∧ 1 ≤ d.day ∧ d.day ≤ daysInMonth d.year d.month

instance (d : Date) : Decidable d.Valid := by
  unfold Date.Valid; infer_instance

/-- The civil date one day after `d` (for valid `d`). -/
def Date.next (d : Date) : Date :=
  if d.day < daysInMonth d.year d.month then ⟨d.year, d.month, d.day + 1⟩
  else if d.month < 12 then ⟨d.year, d.month + 1, 1⟩
  else ⟨d.year + 1, 1, 1⟩

/-- Minutes since the epoch of `Date.toOrdinal`; chronological order of
same-offset Python datetimes is the order of this quantity. -/
def DateTime.toMin (dt : DateTime) : Nat :=
  1440 * dt.date.toOrdinal + 60 * dt.hour + dt.minute

/-- `|a - b|` in minutes, i.e. `abs((a - b).total_seconds()) / 60`. -/
def minAbsDiff (a b : DateTime) : Nat :=
  Int.natAbs ((a.toMin : Int) - (b.toMin : Int))

def pad2 (n : Nat) : String :=
  if n < 10 then "0" ++ toString n else toString n

/-- `strftime('%H:%M')`. -/
def fmtHM (dt : DateTime) : String :=
  pad2 dt.hour ++ ":" ++ pad2 dt.minute

/-- `strftime('%Y-%m-%d %H:%M:%S')` (seconds are always 0 here). -/
def fmtFull (dt : DateTime) : String :=
  toString dt.year ++ "-" ++ pad2 dt.month ++ "-" ++ pad2 dt.day ++ " "
    ++ fmtHM dt ++ ":00"

/-! ## Basic constants of the engine (`saju_engine_final.py`, section 1) -/

def CHEONGAN : List String :=
  ["甲", "乙", "丙", "丁", "戊", "己", "庚", "辛", "壬", "癸"]

def JIJI : List String :=
  ["子", "丑", "寅", "卯", "辰", "巳", "午", "未", "申", "酉", "戌", "亥"]

/-- A ganji (two-character pillar) as the pair of its stem index in
`CHEONGAN` and branch index in `JIJI`. -/
structure Ganji where
  stem : Nat
  branch : Nat
deriving DecidableEq, Repr

/-- `GANJI_60[i] = CHEONGAN[i % 10] + JIJI[i % 12]`. -/
def ganji60 (i : Nat) : Ganji :=
  ⟨i % 10, i % 12⟩

def Ganji.toStr (g : Ganji) : String :=
  (CHEONGAN.getD g.stem "?") ++ (JIJI.getD g.branch "?")

/-- `YEAR_STEM_TO_MONTH_STEM_INDEX`, keyed by stem index
(甲=0, 乙=1, …, 癸=9). In the source this is a dict over stem characters,
total on all ten valid stems; every caller passes a valid stem index. -/
def yearStemToMonthStemIndex (s : Nat) : Nat :=
  match s with
  | 0 => 2 | 5 => 2
  | 1 => 4 | 6 => 4
  | 2 => 6 | 7 => 6
  | 3 => 8 | 8 => 8
  | 4 => 0 | _ => 0

/-- `DAY_STEM_TO_TIME_STEM_START_INDEX`, keyed by stem index. -/
def dayStemToTimeStemStartIndex (s : Nat) : Nat :=
  match s with
  | 0 => 0 | 5 => 0
  | 1 => 2 | 6 => 2
  | 2 => 4 | 7 => 4
  | 3 => 6 | 8 => 6
  | 4 => 8 | _ => 8

/-- `JEOLGI_INFO` in its source (insertion) order:
(ecliptic degree, name, month index). -/
def JEOLGI_INFO : List (Nat × String × Nat) :=
  [(315, "입춘", 0), (345, "경칩", 1), (15, "청명", 2), (45, "입하", 3),
   (75, "망종", 4), (105, "소서", 5), (135, "입추", 6), (165, "백로", 7),
   (195, "한로", 8), (225, "입동", 9), (255, "대설", 10), (285, "소한", 11)]

/-- `SUMMER_TIME_PERIODS`: Korean daylight-saving date intervals. -/
def SUMMER_TIME_PERIODS : List (Date × Date) :=
  [(⟨1948, 6, 1⟩, ⟨1948, 9, 12⟩),
   (⟨1949, 4, 3⟩, ⟨1949, 9, 10⟩),
   (⟨1950, 4, 1⟩, ⟨1950, 9, 9⟩),
   (⟨1951, 5, 6⟩, ⟨1951, 9, 8⟩),
   (⟨1955, 5, 5⟩, ⟨1955, 9, 8⟩),
   (⟨1956, 5, 20⟩, ⟨1956, 9, 29⟩),
   (⟨1957, 5, 5⟩, ⟨1957, 9, 21⟩),
   (⟨1958, 5, 4⟩, ⟨1958, 9, 20⟩),
   (⟨1959, 5, 3⟩, ⟨1959, 9, 19⟩),
   (⟨1960, 5, 1⟩, ⟨1960, 9, 17⟩),
   (⟨1987, 5, 10⟩, ⟨1987, 10, 10⟩),
   (⟨1988, 5, 8⟩, ⟨1988, 10, 8⟩)]

/-- `is_summer_time(dt)`: whether the civil date of `dt` falls in one of
the fixed daylight-saving intervals. -/
def is_summer_time (dt : DateTime) : Bool :=
  SUMMER_TIME_PERIODS.any fun se =>
    decide (se.1.toOrdinal ≤ dt.date.toOrdinal) &&
    decide (dt.date.toOrdinal ≤ se.2.toOrdinal)

/-! ## Solar-term (절기) data and lookup -/

/-- One resolved solar-term event, as the dict built by
`SajuEngine._get_all_jeolgi_for_year`. -/
structure Jeolgi where
  dt : DateTime
  name : String
  degree : Nat
  monthIdx : Nat
  source : String
deriving DecidableEq, Repr

/-- `KASI_JEOLGI_DATA`: official tabulated solar-term instants (KST),
`{year: {degree: (y, m, d, h, mi)}}` transcribed as an association list. -/
def KASI_JEOLGI_DATA : List (Nat × List (Nat × DateTime)) := [
  (2004, [
    (285, ⟨2004, 1, 6, 8, 19⟩),
    (315, ⟨2004, 2, 4, 20, 56⟩),
    (345, ⟨2004, 3, 5, 14, 56⟩),
    (15, ⟨2004, 4, 4, 19, 43⟩),
    (45, ⟨2004, 5, 5, 13, 2⟩),
    (75, ⟨2004, 6, 5, 16, 14⟩),
    (105, ⟨2004, 7, 7, 0, 31⟩),
    (135, ⟨2004, 8, 7, 10, 20⟩),
    (165, ⟨2004, 9, 7, 12, 12⟩),
    (195, ⟨2004, 10, 8, 2, 49⟩),
    (225, ⟨2004, 11, 7, 6, 59⟩),
    (255, ⟨2004, 12, 6, 23, 49⟩)
  ]),
  (2005, [
    (285, ⟨2005, 1, 5, 14, 3⟩),
    (315, ⟨2005, 2, 4, 2, 43⟩),
    (345, ⟨2005, 3, 5, 20, 45⟩),
    (15, ⟨2005, 4, 5, 1, 34⟩),
    (45, ⟨2005, 5, 5, 18, 52⟩),
    (75, ⟨2005, 6, 5, 22, 2⟩),
    (105, ⟨2005, 7, 7, 6, 17⟩),
    (135, ⟨2005, 8, 7, 16, 3⟩),
    (165, ⟨2005, 9, 7, 17, 56⟩),
    (195, ⟨2005, 10, 8, 8, 34⟩),
    (225, ⟨2005, 11, 7, 12, 42⟩),
    (255, ⟨2005, 12, 7, 5, 33⟩)
  ]),
  (2006, [
    (285, ⟨2006, 1, 5, 19, 47⟩),
    (315, ⟨2006, 2, 4, 8, 27⟩),
    (345, ⟨2006, 3, 6, 2, 29⟩),
    (15, ⟨2006, 4, 5, 7, 15⟩),
    (45, ⟨2006, 5, 6, 0, 31⟩),
    (75, ⟨2006, 6, 6, 3, 37⟩),
    (105, ⟨2006, 7, 7, 11, 51⟩),
    (135, ⟨2006, 8, 7, 21, 41⟩),
    (165, ⟨2006, 9, 7, 23, 39⟩),
    (195, ⟨2006, 10, 8, 14, 17⟩),
    (225, ⟨2006, 11, 7, 18, 26⟩),
    (255, ⟨2006, 12, 7, 11, 18⟩)
  ]),
  (2007, [
    (285, ⟨2007, 1, 6, 1, 40⟩),
    (315, ⟨2007, 2, 4, 14, 18⟩),
    (345, ⟨2007, 3, 6, 8, 18⟩),
    (15, ⟨2007, 4, 5, 13, 4⟩),
    (45, ⟨2007, 5, 6, 6, 20⟩),
    (75, ⟨2007, 6, 6, 9, 27⟩),
    (105, ⟨2007, 7, 7, 17, 42⟩),
    (135, ⟨2007, 8, 8, 3, 31⟩),
    (165, ⟨2007, 9, 8, 5, 29⟩),
    (195, ⟨2007, 10, 8, 20, 6⟩),
    (225, ⟨2007, 11, 8, 0, 17⟩),
    (255, ⟨2007, 12, 7, 17, 10⟩)
  ]),
  (2008, [
    (285, ⟨2008, 1, 6, 7, 25⟩),
    (315, ⟨2008, 2, 4, 20, 0⟩),
    (345, ⟨2008, 3, 5, 13, 59⟩),
    (15, ⟨2008, 4, 4, 18, 46⟩),
    (45, ⟨2008, 5, 5, 12, 3⟩),
    (75, ⟨2008, 6, 5, 15, 12⟩),
    (105, ⟨2008, 7, 6, 23, 27⟩),
    (135, ⟨2008, 8, 7, 9, 16⟩),
    (165, ⟨2008, 9, 7, 11, 14⟩),
    (195, ⟨2008, 10, 8, 1, 57⟩),
    (225, ⟨2008, 11, 7, 6, 10⟩),
    (255, ⟨2008, 12, 6, 23, 2⟩)
  ]),
  (2009, [
    (285, ⟨2009, 1, 5, 13, 14⟩),
    (315, ⟨2009, 2, 4, 1, 50⟩),
    (345, ⟨2009, 3, 5, 19, 48⟩),
    (15, ⟨2009, 4, 5, 0, 34⟩),
    (45, ⟨2009, 5, 5, 17, 51⟩),
    (75, ⟨2009, 6, 5, 21, 0⟩),
    (105, ⟨2009, 7, 7, 5, 13⟩),
    (135, ⟨2009, 8, 7, 15, 1⟩),
    (165, ⟨2009, 9, 7, 16, 57⟩),
    (195, ⟨2009, 10, 8, 7, 40⟩),
    (225, ⟨2009, 11, 7, 11, 56⟩),
    (255, ⟨2009, 12, 7, 4, 52⟩)
  ]),
  (2010, [
    (285, ⟨2010, 1, 5, 19, 9⟩),
    (315, ⟨2010, 2, 4, 7, 48⟩),
    (345, ⟨2010, 3, 6, 1, 46⟩),
    (15, ⟨2010, 4, 5, 6, 30⟩),
    (45, ⟨2010, 5, 5, 23, 44⟩),
    (75, ⟨2010, 6, 6, 2, 49⟩),
    (105, ⟨2010, 7, 7, 11, 2⟩),
    (135, ⟨2010, 8, 7, 20, 49⟩),
    (165, ⟨2010, 9, 7, 22, 45⟩),
    (195, ⟨2010, 10, 8, 13, 26⟩),
    (225, ⟨2010, 11, 7, 17, 42⟩),
    (255, ⟨2010, 12, 7, 10, 38⟩)
  ]),
  (2011, [
    (285, ⟨2011, 1, 6, 0, 55⟩),
    (315, ⟨2011, 2, 4, 13, 33⟩),
    (345, ⟨2011, 3, 6, 7, 30⟩),
    (15, ⟨2011, 4, 5, 12, 12⟩),
    (45, ⟨2011, 5, 6, 5, 23⟩),
    (75, ⟨2011, 6, 6, 8, 29⟩),
    (105, ⟨2011, 7, 7, 16, 42⟩),
    (135, ⟨2011, 8, 8, 2, 33⟩),
    (165, ⟨2011, 9, 8, 4, 35⟩),
    (195, ⟨2011, 10, 8, 19, 19⟩),
    (225, ⟨2011, 11, 7, 23, 34⟩),
    (255, ⟨2011, 12, 7, 16, 29⟩)
  ]),
  (2012, [
    (285, ⟨2012, 1, 6, 6, 44⟩),
    (315, ⟨2012, 2, 4, 19, 22⟩),
    (345, ⟨2012, 3, 5, 13, 21⟩),
    (15, ⟨2012, 4, 4, 18, 5⟩),
    (45, ⟨2012, 5, 5, 11, 20⟩),
    (75, ⟨2012, 6, 5, 14, 26⟩),
    (105, ⟨2012, 7, 6, 22, 41⟩),
    (135, ⟨2012, 8, 7, 8, 31⟩),
    (165, ⟨2012, 9, 7, 10, 29⟩),
    (195, ⟨2012, 10, 8, 1, 12⟩),
    (225, ⟨2012, 11, 7, 5, 26⟩),
    (255, ⟨2012, 12, 6, 22, 19⟩)
  ]),
  (2013, [
    (285, ⟨2013, 1, 5, 12, 34⟩),
    (315, ⟨2013, 2, 4, 1, 13⟩),
    (345, ⟨2013, 3, 5, 19, 14⟩),
    (15, ⟨2013, 4, 4, 23, 2⟩),
    (45, ⟨2013, 5, 5, 17, 18⟩),
    (75, ⟨2013, 6, 5, 20, 23⟩),
    (105, ⟨2013, 7, 7, 4, 35⟩),
    (135, ⟨2013, 8, 7, 14, 20⟩),
    (165, ⟨2013, 9, 7, 16, 16⟩),
    (195, ⟨2013, 10, 8, 6, 59⟩),
    (225, ⟨2013, 11, 7, 11, 14⟩),
    (255, ⟨2013, 12, 7, 4, 9⟩)
  ]),
  (2014, [
    (285, ⟨2014, 1, 5, 18, 24⟩),
    (315, ⟨2014, 2, 4, 7, 3⟩),
    (345, ⟨2014, 3, 6, 1, 2⟩),
    (15, ⟨2014, 4, 5, 4, 47⟩),
    (45, ⟨2014, 5, 5, 22, 59⟩),
    (75, ⟨2014, 6, 6, 2, 3⟩),
    (105, ⟨2014, 7, 7, 10, 15⟩),
    (135, ⟨2014, 8, 7, 20, 2⟩),
    (165, ⟨2014, 9, 7, 22, 1⟩),
    (195, ⟨2014, 10, 8, 12, 47⟩),
    (225, ⟨2014, 11, 7, 17, 7⟩),
    (255, ⟨2014, 12, 7, 10, 4⟩)
  ]),
  (2015, [
    (285, ⟨2015, 1, 6, 0, 21⟩),
    (315, ⟨2015, 2, 4, 12, 58⟩),
    (345, ⟨2015, 3, 6, 6, 56⟩),
    (15, ⟨2015, 4, 5, 10, 39⟩),
    (45, ⟨2015, 5, 6, 4, 53⟩),
    (75, ⟨2015, 6, 6, 7, 58⟩),
    (105, ⟨2015, 7, 7, 16, 12⟩),
    (135, ⟨2015, 8, 8, 1, 1⟩),
    (165, ⟨2015, 9, 8, 3, 59⟩),
    (195, ⟨2015, 10, 8, 18, 43⟩),
    (225, ⟨2015, 11, 7, 22, 59⟩),
    (255, ⟨2015, 12, 7, 15, 53⟩)
  ]),
  (2016, [
    (285, ⟨2016, 1, 6, 6, 8⟩),
    (315, ⟨2016, 2, 4, 18, 46⟩),
    (345, ⟨2016, 3, 5, 12, 44⟩),
    (15, ⟨2016, 4, 4, 16, 28⟩),
    (45, ⟨2016, 5, 5, 10, 42⟩),
    (75, ⟨2016, 6, 5, 13, 49⟩),
    (105, ⟨2016, 7, 6, 22, 3⟩),
    (135, ⟨2016, 8, 7, 7, 53⟩),
    (165, ⟨2016, 9, 7, 9, 51⟩),
    (195, ⟨2016, 10, 8, 0, 33⟩),
    (225, ⟨2016, 11, 7, 4, 48⟩),
    (255, ⟨2016, 12, 6, 21, 41⟩)
  ]),
  (2017, [
    (285, ⟨2017, 1, 5, 11, 56⟩),
    (315, ⟨2017, 2, 4, 0, 34⟩),
    (345, ⟨2017, 3, 5, 18, 32⟩),
    (15, ⟨2017, 4, 4, 22, 17⟩),
    (45, ⟨2017, 5, 5, 16, 31⟩),
    (75, ⟨2017, 6, 5, 19, 37⟩),
    (105, ⟨2017, 7, 7, 3, 51⟩),
    (135, ⟨2017, 8, 7, 13, 40⟩),
    (165, ⟨2017, 9, 7, 15, 39⟩),
    (195, ⟨2017, 10, 8, 6, 22⟩),
    (225, ⟨2017, 11, 7, 10, 38⟩),
    (255, ⟨2017, 12, 7, 3, 33⟩)
  ]),
  (2018, [
    (285, ⟨2018, 1, 5, 17, 49⟩),
    (315, ⟨2018, 2, 4, 6, 28⟩),
    (345, ⟨2018, 3, 6, 0, 28⟩),
    (15, ⟨2018, 4, 5, 4, 13⟩),
    (45, ⟨2018, 5, 5, 22, 25⟩),
    (75, ⟨2018, 6, 6, 1, 29⟩),
    (105, ⟨2018, 7, 7, 9, 42⟩),
    (135, ⟨2018, 8, 7, 19, 31⟩),
    (165, ⟨2018, 9, 7, 21, 30⟩),
    (195, ⟨2018, 10, 8, 12, 15⟩),
    (225, ⟨2018, 11, 7, 16, 32⟩),
    (255, ⟨2018, 12, 7, 9, 26⟩)
  ]),
  (2019, [
    (285, ⟨2019, 1, 5, 23, 39⟩),
    (315, ⟨2019, 2, 4, 12, 14⟩),
    (345, ⟨2019, 3, 6, 6, 10⟩),
    (15, ⟨2019, 4, 5, 9, 51⟩),
    (45, ⟨2019, 5, 6, 4, 3⟩),
    (75, ⟨2019, 6, 6, 7, 6⟩),
    (105, ⟨2019, 7, 7, 15, 21⟩),
    (135, ⟨2019, 8, 8, 1, 13⟩),
    (165, ⟨2019, 9, 8, 3, 17⟩),
    (195, ⟨2019, 10, 8, 18, 6⟩),
    (225, ⟨2019, 11, 7, 22, 24⟩),
    (255, ⟨2019, 12, 7, 15, 18⟩)
  ]),
  (2020, [
    (285, ⟨2020, 1, 6, 5, 30⟩),
    (315, ⟨2020, 2, 4, 18, 3⟩),
    (345, ⟨2020, 3, 5, 11, 57⟩),
    (15, ⟨2020, 4, 4, 15, 38⟩),
    (45, ⟨2020, 5, 5, 9, 51⟩),
    (75, ⟨2020, 6, 5, 12, 58⟩),
    (105, ⟨2020, 7, 6, 21, 14⟩),
    (135, ⟨2020, 8, 7, 7, 6⟩),
    (165, ⟨2020, 9, 7, 9, 8⟩),
    (195, ⟨2020, 10, 8, 3, 55⟩),
    (225, ⟨2020, 11, 7, 8, 14⟩),
    (255, ⟨2020, 12, 7, 1, 9⟩)
  ]),
  (2021, [
    (285, ⟨2021, 1, 5, 11, 23⟩),
    (315, ⟨2021, 2, 3, 23, 59⟩),
    (345, ⟨2021, 3, 5, 17, 54⟩),
    (15, ⟨2021, 4, 4, 21, 35⟩),
    (45, ⟨2021, 5, 5, 15, 47⟩),
    (75, ⟨2021, 6, 5, 18, 52⟩),
    (105, ⟨2021, 7, 7, 3, 5⟩),
    (135, ⟨2021, 8, 7, 12, 54⟩),
    (165, ⟨2021, 9, 7, 14, 53⟩),
    (195, ⟨2021, 10, 8, 5, 39⟩),
    (225, ⟨2021, 11, 7, 9, 59⟩),
    (255, ⟨2021, 12, 7, 2, 57⟩)
  ]),
  (2022, [
    (285, ⟨2022, 1, 5, 17, 14⟩),
    (315, ⟨2022, 2, 4, 5, 51⟩),
    (345, ⟨2022, 3, 5, 23, 44⟩),
    (15, ⟨2022, 4, 5, 3, 20⟩),
    (45, ⟨2022, 5, 5, 21, 26⟩),
    (75, ⟨2022, 6, 6, 0, 26⟩),
    (105, ⟨2022, 7, 7, 8, 38⟩),
    (135, ⟨2022, 8, 7, 18, 29⟩),
    (165, ⟨2022, 9, 7, 20, 32⟩),
    (195, ⟨2022, 10, 8, 11, 22⟩),
    (225, ⟨2022, 11, 7, 15, 45⟩),
    (255, ⟨2022, 12, 7, 8, 46⟩)
  ]),
  (2023, [
    (285, ⟨2023, 1, 5, 23, 5⟩),
    (315, ⟨2023, 2, 4, 11, 43⟩),
    (345, ⟨2023, 3, 6, 5, 36⟩),
    (15, ⟨2023, 4, 5, 9, 13⟩),
    (45, ⟨2023, 5, 6, 3, 19⟩),
    (75, ⟨2023, 6, 6, 6, 18⟩),
    (105, ⟨2023, 7, 7, 14, 31⟩),
    (135, ⟨2023, 8, 8, 0, 23⟩),
    (165, ⟨2023, 9, 8, 2, 27⟩),
    (195, ⟨2023, 10, 8, 17, 16⟩),
    (225, ⟨2023, 11, 7, 21, 36⟩),
    (255, ⟨2023, 12, 7, 14, 33⟩)
  ]),
  (2024, [
    (285, ⟨2024, 1, 6, 5, 49⟩),
    (315, ⟨2024, 2, 4, 17, 27⟩),
    (345, ⟨2024, 3, 5, 11, 23⟩),
    (15, ⟨2024, 4, 4, 16, 2⟩),
    (45, ⟨2024, 5, 5, 9, 10⟩),
    (75, ⟨2024, 6, 5, 13, 10⟩),
    (105, ⟨2024, 7, 6, 23, 20⟩),
    (135, ⟨2024, 8, 7, 9, 9⟩),
    (165, ⟨2024, 9, 7, 12, 11⟩),
    (195, ⟨2024, 10, 8, 4, 0⟩),
    (225, ⟨2024, 11, 7, 7, 20⟩),
    (255, ⟨2024, 12, 7, 0, 17⟩)
  ]),
  (2025, [
    (285, ⟨2025, 1, 5, 11, 33⟩),
    (315, ⟨2025, 2, 3, 23, 10⟩),
    (345, ⟨2025, 3, 5, 17, 7⟩),
    (15, ⟨2025, 4, 4, 21, 2⟩),
    (45, ⟨2025, 5, 5, 14, 57⟩),
    (75, ⟨2025, 6, 5, 18, 56⟩),
    (105, ⟨2025, 7, 7, 4, 5⟩),
    (135, ⟨2025, 8, 7, 14, 51⟩),
    (165, ⟨2025, 9, 7, 17, 52⟩),
    (195, ⟨2025, 10, 8, 8, 41⟩),
    (225, ⟨2025, 11, 7, 13, 4⟩),
    (255, ⟨2025, 12, 7, 6, 5⟩)
  ]),
  (2026, [
    (285, ⟨2026, 1, 5, 17, 23⟩),
    (315, ⟨2026, 2, 4, 5, 2⟩),
    (345, ⟨2026, 3, 5, 22, 59⟩),
    (15, ⟨2026, 4, 5, 2, 52⟩),
    (45, ⟨2026, 5, 5, 20, 49⟩),
    (75, ⟨2026, 6, 6, 0, 48⟩),
    (105, ⟨2026, 7, 7, 9, 57⟩),
    (135, ⟨2026, 8, 7, 20, 43⟩),
    (165, ⟨2026, 9, 7, 23, 41⟩),
    (195, ⟨2026, 10, 8, 14, 29⟩),
    (225, ⟨2026, 11, 7, 18, 51⟩),
    (255, ⟨2026, 12, 7, 11, 52⟩)
  ]),
  (2027, [
    (285, ⟨2027, 1, 5, 23, 10⟩),
    (315, ⟨2027, 2, 4, 10, 46⟩),
    (345, ⟨2027, 3, 6, 4, 39⟩),
    (15, ⟨2027, 4, 5, 8, 17⟩),
    (45, ⟨2027, 5, 6, 2, 11⟩),
    (75, ⟨2027, 6, 6, 6, 0⟩),
    (105, ⟨2027, 7, 7, 15, 5⟩),
    (135, ⟨2027, 8, 8, 1, 53⟩),
    (165, ⟨2027, 9, 8, 4, 53⟩),
    (195, ⟨2027, 10, 8, 19, 44⟩),
    (225, ⟨2027, 11, 7, 23, 57⟩),
    (255, ⟨2027, 12, 7, 16, 55⟩)
  ])
]

/-- `get_kasi_jeolgi(degree, year)`: lookup in the KASI table. -/
def get_kasi_jeolgi (degree year : Nat) : Option DateTime :=
  match KASI_JEOLGI_DATA.find? (fun p => p.1 == year) with
  | some (_, tbl) =>
    match tbl.find? (fun p => p.1 == degree) with
    | some (_, dt) => some dt
    | none => none
  | none => none

/-- `SajuEngine._get_all_jeolgi_for_year(year)`, restricted to the KASI
table: iterate `JEOLGI_INFO` in insertion order, keep the terms whose
instant is available, and sort by instant.  The source additionally falls
back to an astropy ephemeris root-finder (`calculate_jeolgi_astropy`) for
years outside the table; that astronomical computation is external to the
repository and is not embedded — for every year covered by the KASI table
(2004–2027) the source uses exactly the tabulated instants, and the
engine-level theorems below are stated for an arbitrary solar-term
environment, so nothing depends on the fallback. -/
def getAllJeolgiForYear (year : Nat) : List Jeolgi :=
  let raw := JEOLGI_INFO.filterMap fun info =>
    (get_kasi_jeolgi info.1 year).map fun dt =>
      { dt := dt, name := info.2.1, degree := info.1,
        monthIdx := info.2.2, source := "KASI" }
  raw.insertionSort (fun a b => a.dt.toMin ≤ b.dt.toMin)

/-! ## Ten-gods (십성) tables and lookup -/

/-- `TEN_GODS_MAP_STEM[(day_idx, stem_idx)]`, transcribed row-major:
row = day-master stem index, column = other stem index. -/
def TEN_GODS_MAP_STEM : List (List String) :=
  [["일원", "겁재", "식신", "상관", "편재", "정재", "편관", "정관", "편인", "정인"],
   ["겁재", "일원", "상관", "식신", "정재", "편재", "정관", "편관", "정인", "편인"],
   ["편인", "정인", "일원", "겁재", "식신", "상관", "편재", "정재", "편관", "정관"],
   ["정인", "편인", "겁재", "일원", "상관", "식신", "정재", "편재", "정관", "편관"],
   ["편관", "정관", "편인", "정인", "일원", "겁재", "식신", "상관", "편재", "정재"],
   ["정관", "편관", "정인", "편인", "겁재", "일원", "상관", "식신", "정재", "편재"],
   ["편재", "정재", "편관", "정관", "편인", "정인", "일원", "겁재", "식신", "상관"],
   ["정재", "편재", "정관", "편관", "정인", "편인", "겁재", "일원", "상관", "식신"],
   ["식신", "상관", "편재", "정재", "편관", "정관", "편인", "정인", "일원", "겁재"],
   ["상관", "식신", "정재", "편재", "정관", "편관", "정인", "편인", "겁재", "일원"]]

/-- `JIJI_TO_STEM_INDEX`, keyed by branch index (子=0, …, 亥=11). -/
def JIJI_TO_STEM_INDEX : List Nat :=
  [9, 5, 0, 1, 4, 2, 3, 5, 6, 7, 4, 8]

structure Sipsin where
  stem_ten_god : String
  branch_ten_god : String
deriving DecidableEq, Repr

/-- `calculate_pillar_sipsin(day_master, ganji)`.  The ganji is always a
well-formed two-character pillar here, so of the source's malformed-input
guard only the `day_master not in CHEONGAN` half is representable. -/
def calculate_pillar_sipsin (day_master : Nat) (g : Ganji) : Sipsin :=
  if 10 ≤ day_master then ⟨"N/A", "N/A"⟩
  else
    let row := TEN_GODS_MAP_STEM.getD day_master []
    let stem_sipsin := row.getD g.stem "N/A"
    let branch_sipsin :=
      match JIJI_TO_STEM_INDEX.get? g.branch with
      | some bsi => row.getD bsi "N/A"
      | none => "N/A"
    ⟨stem_sipsin, branch_sipsin⟩

/-! ## Boundary status and boundary check -/

/-- `BoundaryStatus` enum. -/
inductive BoundaryStatus
  | safe
  | boundary
  | critical
deriving DecidableEq, Repr

def BoundaryStatus.value : BoundaryStatus → String
  | safe => "safe"
  | boundary => "boundary"
  | critical => "critical"

/-- `SajuEngine._check_boundary(birth_dt, prev_jeolgi, next_jeolgi)`.
`time_diff = abs((birth - jeolgi).total_seconds()/3600) <= 2` becomes
`minAbsDiff ≤ 120` (exact; see the header note on floats). -/
def check_boundary (birth : DateTime) (prev next : Option Jeolgi) :
    BoundaryStatus × Option String :=
  let nextCase : BoundaryStatus × Option String :=
    match next with
    | some n =>
      if birth.date = n.dt.date then
        if minAbsDiff n.dt birth ≤ 120 then
          (.critical, some ("⚠️ " ++ n.name ++ " 절입 직전 출생!\n→ 외부 만세력 검증 권장"))
        else
          (.boundary, some ("ℹ️ " ++ n.name ++ " 절입일 (절입 전)"))
      else (.safe, none)
    | none => (.safe, none)
  match prev with
  | some p =>
    if birth.date = p.dt.date then
      if minAbsDiff birth p.dt ≤ 120 then
        (.critical, some ("⚠️ " ++ p.name ++ " 절입 시각 근처 출생!\n절입: "
          ++ fmtHM p.dt ++ "\n출생: " ++ fmtHM birth ++ "\n→ 외부 만세력 검증 권장"))
      else
        (.boundary, some ("ℹ️ " ++ p.name ++ " 절입일 출생"))
    else nextCase
  | none => nextCase

/-! ## Day pillar and hour pillar -/

def REF_DATE : Date := ⟨1900, 1, 1⟩

/-- 1900-01-01 = 甲戌. -/
def REF_DAY_GANJI_INDEX : Nat := 10

/-- The combined-cycle index of the day pillar of a civil date: the
index `(REF_DAY_GANJI_INDEX + days_passed) % 60` that `_get_day_ganji`
feeds to `GANJI_60`; `days_passed` may be negative for dates before the
epoch, and Python's `%` on a positive modulus, like `Int.emod`, is then
still non-negative. -/
def day_ganji_index (d : Date) : Nat :=
  Int.toNat (((REF_DAY_GANJI_INDEX : Int) + ((d.toOrdinal : Int) - (REF_DATE.toOrdinal : Int))) % 60)

/-- `SajuEngine._get_day_ganji`: pure day offset from the 1900-01-01
epoch. -/
def get_day_ganji (dt : DateTime) : Ganji :=
  ganji60 (day_ganji_index dt.date)

/-- The two-hour-segment index (`hour_index`) computed by
`_get_shi_ganji`: `0` for hour 23, `(birth_hour + 1) // 2` otherwise. -/
def hour_segment_index (h : Nat) : Nat :=
  if h == 23 then 0 else (h + 1) / 2

/-- `SajuEngine._get_shi_ganji(day_gan, birth_hour)`. -/
def get_shi_ganji (day_gan : Nat) (birth_hour : Nat) : Ganji :=
  ⟨(dayStemToTimeStemStartIndex day_gan + hour_segment_index birth_hour) % 10,
    hour_segment_index birth_hour % 12⟩

/-! ## Decade cycle (대운) -/

structure DaewoonEntry where
  age : Nat
  ganji : Ganji
deriving DecidableEq, Repr

structure DaewoonInfo where
  daewoonSu : Nat      -- "대운수"
  direction : String   -- "순행_역행": "순행" forward / "역행" backward
  entries : List DaewoonEntry  -- "대운_간지_배열"
deriving DecidableEq, Repr

/-- `year_gan in ['甲', '丙', '戊', '庚', '壬']` by stem index. -/
def isYangStem (s : Nat) : Bool :=
  [0, 2, 4, 6, 8].contains s

/-- The decade-cycle direction test of `_calculate_daewoon`:
`is_forward = (is_yang and gender == 'M') or (not is_yang and gender == 'F')`. -/
def daewoon_forward (year_stem : Nat) (gender : String) : Bool :=
  (isYangStem year_stem && gender == "M") || (!isYangStem year_stem && gender == "F")

/-- `SajuEngine._calculate_daewoon`.  `none` models the source's error
dict `{"error": "기준 절기 데이터 부족"}`.  `floor(days_diff / 3)` with
`days_diff = abs(Δ.total_seconds())/86400` is `minAbsDiff / 4320` (exact
over minutes).  Python's `(m_s_idx - i + 10) % 10` and
`(m_b_idx - i + 12) % 12` are non-negative for `1 ≤ i ≤ 8`, so they equal
the truncation-free `(m_s_idx + 10 - i) % 10` and `(m_b_idx + 12 - i) % 12`. -/
def calculate_daewoon (year_ganji month_ganji : Ganji) (birth_dt : DateTime)
    (gender : String) (prev next : Option Jeolgi) : Option DaewoonInfo :=
  let is_forward := daewoon_forward year_ganji.stem gender
  let ref_jeolgi := if is_forward then next else prev
  match ref_jeolgi with
  | none => none
  | some rj =>
    let daewoon_su0 := minAbsDiff rj.dt birth_dt / 4320
    let daewoon_su1 := if daewoon_su0 == 0 then 1 else daewoon_su0
    let daewoon_su := max 1 (min 10 daewoon_su1)
    let m_s_idx := month_ganji.stem
    let m_b_idx := month_ganji.branch
    let daewoon_list := (List.range 8).map fun k =>
      let i := k + 1
      let age := daewoon_su + (i - 1) * 10
      let s_idx := if is_forward then (m_s_idx + i) % 10 else (m_s_idx + 10 - i) % 10
      let b_idx := if is_forward then (m_b_idx + i) % 12 else (m_b_idx + 12 - i) % 12
      DaewoonEntry.mk age (Ganji.mk s_idx b_idx)
    some ⟨daewoon_su, if is_forward then "순행" else "역행", daewoon_list⟩

/-! ## Chart generation (`SajuEngine.generate_saju_palja`) -/

structure SajuResult where
  yearGanji : Ganji                 -- "년주"
  monthGanji : Ganji                -- "월주"
  dayGanji : Ganji                  -- "일주"
  shiGanji : Ganji                  -- "시주"
  daewoonInfo : Option DaewoonInfo  -- "대운_정보" (`none` = the error dict)
  birthFormatted : String           -- "출생일"
  ilgan : Nat                       -- "일간", as a stem index
  tenGodsArray : List Sipsin        -- "십성_결과_배열"
  boundaryStatus : BoundaryStatus   -- "경계_상태" (the enum's `.value`)
  boundaryMsg : Option String       -- "경계_메시지"
  appliedJeolgi : String            -- "적용_절기"
  jeolgiSource : String             -- "절기_소스"
deriving DecidableEq, Repr

/-- The prev/next scan over the sorted term list (`generate_saju_palja`,
the `for j in all_jeolgi` loop): `prev` becomes the last term with
instant ≤ birth, `next` the first term strictly after, scanning in list
order and stopping at the first later term. -/
def findPrevNext : List Jeolgi → DateTime → Option Jeolgi → Option Jeolgi × Option Jeolgi
  | [], _, prev => (prev, none)
  | j :: rest, birth, prev =>
    if j.dt.toMin ≤ birth.toMin then findPrevNext rest birth (some j)
    else (prev, some j)

/-- The 입춘 (315°) search of `generate_saju_palja`: first the term whose
instant falls in calendar year `year`, then, failing that, in `year + 1`. -/
def findLipchun (all_jeolgi : List Jeolgi) (year : Nat) : Option DateTime :=
  match all_jeolgi.find? (fun j => j.degree == 315 && j.dt.year == year) with
  | some j => some j.dt
  | none =>
    match all_jeolgi.find? (fun j => j.degree == 315 && j.dt.year == year + 1) with
    | some j => some j.dt
    | none => none

/-- The body of `generate_saju_palja` once the prior term is known to
exist (source lines 536–595): boundary check, 입춘-adjusted year pillar,
month/day/hour pillars, ten gods, and decade cycle. -/
def build_result (all_jeolgi : List Jeolgi) (birth_dt : DateTime) (gender : String)
    (prev_jeolgi : Jeolgi) (next_jeolgi : Option Jeolgi) : SajuResult :=
  let year := birth_dt.year
  let boundary := check_boundary birth_dt (some prev_jeolgi) next_jeolgi
  let lipchun := findLipchun all_jeolgi year
  let calc_year : Int :=
    match lipchun with
    | some lc => if birth_dt.toMin < lc.toMin then (year : Int) - 1 else (year : Int)
    | none => (year : Int)
  let year_index := Int.toNat ((calc_year - 1864) % 60)
  let year_ganji := ganji60 year_index
  let year_gan := year_ganji.stem
  let month_idx := prev_jeolgi.monthIdx
  let month_stem_start := yearStemToMonthStemIndex year_gan
  let month_stem_idx := (month_stem_start + month_idx) % 10
  let month_branch_idx := (month_idx + 2) % 12  -- 인월=寅=index 2
  let month_ganji := Ganji.mk month_stem_idx month_branch_idx
  let day_ganji := get_day_ganji birth_dt
  let day_gan := day_ganji.stem
  let shi_ganji := get_shi_ganji day_gan birth_dt.hour
  let pillars := [year_ganji, month_ganji, day_ganji, shi_ganji]
  let ten_gods_array := pillars.map (calculate_pillar_sipsin day_gan)
  let daewoon_info := calculate_daewoon year_ganji month_ganji birth_dt gender
    (some prev_jeolgi) next_jeolgi
  { yearGanji := year_ganji
    monthGanji := month_ganji
    dayGanji := day_ganji
    shiGanji := shi_ganji
    daewoonInfo := daewoon_info
    birthFormatted := fmtFull birth_dt
    ilgan := day_gan
    tenGodsArray := ten_gods_array
    boundaryStatus := boundary.1
    boundaryMsg := boundary.2
    appliedJeolgi := prev_jeolgi.name
    jeolgiSource := prev_jeolgi.source }

/-- `generate_saju_palja` from the point where the merged, sorted term
list is in hand (source lines 522–595), parametrised by that list.  The
`.error` case is the source's `raise ValueError("절기 데이터 부족")`. -/
def generate_saju_core (all_jeolgi : List Jeolgi) (birth_dt : DateTime)
    (gender : String) : Except String SajuResult :=
  match findPrevNext all_jeolgi birth_dt none with
  | (none, _) => .error "절기 데이터 부족"
  | (some prev_jeolgi, next_jeolgi) =>
    .ok (build_result all_jeolgi birth_dt gender prev_jeolgi next_jeolgi)

/-- `SajuEngine.generate_saju_palja(birth_dt, gender)`: load the terms of
the birth year and its two neighbours, merge, sort by instant, and run
the core computation. -/
def generate_saju_palja (birth_dt : DateTime) (gender : String) :
    Except String SajuResult :=
  let year := birth_dt.year
  let all_jeolgi :=
    ((getAllJeolgiForYear (year - 1) ++ getAllJeolgiForYear year)
        ++ getAllJeolgiForYear (year + 1)).insertionSort
      (fun a b => a.dt.toMin ≤ b.dt.toMin)
  generate_saju_core all_jeolgi birth_dt gender

/-- `SajuEngine.get_sewoon(start_year, count)`. -/
def get_sewoon (start_year : Nat) (count : Nat) : List (Nat × Ganji) :=
  (List.range count).map fun i =>
    let year := start_year + i
    (year, ganji60 (Int.toNat (((year : Int) - 1864) % 60)))

/-- The 60-cycle membership invariant for a pillar: stem index and
branch index agree in parity (every element of `GANJI_60` satisfies it,
and only those pairs occur in the 60-element cycle). -/
def Ganji.parityOk (g : Ganji) : Prop :=
  g.stem % 2 = g.branch % 2

instance (g : Ganji) : Decidable g.parityOk := by
  unfold Ganji.parityOk; infer_instance

/-! ## Calendar lemmas -/

theorem isLeapYear_iff (y : Nat) :
    isLeapYear y = true ↔ ((y % 4 = 0 ∧ y % 100 ≠ 0) ∨ y % 400 = 0) := by
  simp [isLeapYear]

theorem daysBeforeMonth_succ (y m : Nat) (h1 : 1 ≤ m) (h2 : m ≤ 11) :
    daysBeforeMonth y (m + 1) = daysBeforeMonth y m + daysInMonth y m := by
  interval_cases m <;> cases hL : isLeapYear y <;>
    simp [daysBeforeMonth, daysInMonth, hL]

set_option maxHeartbeats 1000000 in
/-- Successor correctness of the proleptic-Gregorian day number: moving
to the next civil date increases `Date.toOrdinal` by exactly one. -/
theorem toOrdinal_next (d : Date) (h : d.Valid) :
    d.next.toOrdinal = d.toOrdinal + 1 := by
  obtain ⟨hy, hm1, hm2, hd1, hd2⟩ := h
  unfold Date.next
  by_cases hlt : d.day < daysInMonth d.year d.month
  · rw [if_pos hlt]
    simp only [Date.toOrdinal]
    omega
  · rw [if_neg hlt]
    have hde : d.day = daysInMonth d.year d.month := le_antisymm hd2 (not_lt.mp hlt)
    by_cases hm : d.month < 12
    · rw [if_pos hm]
      have hmle : d.month ≤ 11 := by omega
      simp only [Date.toOrdinal]
      rw [daysBeforeMonth_succ d.year d.month hm1 hmle]
      omega
    · rw [if_neg hm]
      have hm12 : d.month = 12 := by omega
      have hday : d.day = 31 := by rw [hde, hm12]; rfl
      simp only [Date.toOrdinal, hm12, hday]
      have h1 : daysBeforeMonth (d.year + 1) 1 = 0 := rfl
      rw [h1]
      cases hL : isLeapYear d.year
      · have h12 : daysBeforeMonth d.year 12 = 334 := by
          simp [daysBeforeMonth, hL]
        have hiff := isLeapYear_iff d.year
        rw [hL] at hiff
        simp only [Bool.false_eq_true, false_iff] at hiff
        push_neg at hiff
        rw [h12]
        clear hde hd1 hd2 hlt hm hm1 hm2 hm12 hday h1 h12 hL
        omega
      · have h12 : daysBeforeMonth d.year 12 = 335 := by
          simp [daysBeforeMonth, hL]
        have hiff := isLeapYear_iff d.year
        rw [hL] at hiff
        simp only [true_iff] at hiff
        rw [h12]
        clear hde hd1 hd2 hlt hm hm1 hm2 hm12 hday h1 h12 hL
        omega

/-! ## Claim C8: day pillar is a pure epoch offset -/

/-- C8: the day pillar is the 60-cycle element at
`(10 + elapsed whole days since 1900-01-01) mod 60`, computed without any
solar-term input (`get_day_ganji` takes none, and the chart pipeline uses
it unchanged); and for two civil dates one day apart the combined index
advances by exactly `+1 mod 60`. -/
theorem day_pillar_epoch_offset_succ :
    (∀ dt : DateTime, get_day_ganji dt = ganji60 (day_ganji_index dt.date)) ∧
    (∀ (env : List Jeolgi) (b : DateTime) (g : String) (r : SajuResult),
      generate_saju_core env b g = .ok r → r.dayGanji = ganji60 (day_ganji_index b.date)) ∧
    (∀ d : Date, d.Valid → day_ganji_index d.next = (day_ganji_index d + 1) % 60) := by
  refine ⟨fun dt => rfl, ?_, ?_⟩
  · intro env b g r h
    unfold generate_saju_core at h
    rcases hpn : findPrevNext env b none with ⟨po, no⟩
    rw [hpn] at h
    cases po with
    | none => simp at h
    | some pj =>
      simp only at h
      injection h with h2
      rw [← h2]
      rfl
  · intro d h
    unfold day_ganji_index
    rw [toOrdinal_next d h]
    push_cast
    omega

/-- Witness for C8 at a concrete leap-February boundary:
2024-02-28 is a valid civil date and its successor's day-pillar index
advances by one mod 60. -/
theorem day_pillar_epoch_offset_succ_witness :
    Date.Valid ⟨2024, 2, 28⟩ ∧
    day_ganji_index (Date.next ⟨2024, 2, 28⟩) = (day_ganji_index ⟨2024, 2, 28⟩ + 1) % 60 :=
  ⟨by decide, day_pillar_epoch_offset_succ.2.2 ⟨2024, 2, 28⟩ (by decide)⟩

/-! ## Shape of a successful chart generation -/

theorem generate_core_ok (env : List Jeolgi) (b : DateTime) (g : String) (r : SajuResult)
    (h : generate_saju_core env b g = .ok r) :
    ∃ pj nj, findPrevNext env b none = (some pj, nj) ∧ r = build_result env b g pj nj := by
  unfold generate_saju_core at h
  rcases hpn : findPrevNext env b none with ⟨po, no⟩
  rw [hpn] at h
  cases po with
  | none => simp at h
  | some pj =>
    simp only at h
    injection h with h2
    exact ⟨pj, no, rfl, h2.symm⟩

theorem minAbsDiff_comm (a b : DateTime) : minAbsDiff a b = minAbsDiff b a := by
  unfold minAbsDiff
  omega

/-! ## Claim C9: hour pillar from two-hour segments -/

/-- C9: the segment index is `0` at hour 23 and `⌊(h+1)/2⌋` otherwise
(hour 14 gives segment 7); the hour branch is the branch alphabet element
at the segment index mod 12 and the hour stem is the stem at
(offset-table-B start for the day stem + segment index) mod 10. -/
theorem hour_pillar_segment :
    (∀ h : Nat, hour_segment_index h = if h = 23 then 0 else (h + 1) / 2) ∧
    hour_segment_index 14 = 7 ∧
    (∀ day_gan h : Nat, get_shi_ganji day_gan h =
      ⟨(dayStemToTimeStemStartIndex day_gan + hour_segment_index h) % 10,
        hour_segment_index h % 12⟩) := by
  refine ⟨fun h => ?_, rfl, fun d h => rfl⟩
  simp [hour_segment_index]

/-! ## Claim C10: no boundary flag without a date coincidence -/

/-- C10: when the birth civil date differs from the dates of both the
prior and the next solar-term instant, `_check_boundary` returns `safe`
with no message — the proximity test is gated on date coincidence, never
on time distance alone. -/
theorem boundary_safe_when_dates_differ (b : DateTime) (p : Jeolgi) (n : Option Jeolgi)
    (hp : b.date ≠ p.dt.date)
    (hn : ∀ j, n = some j → b.date ≠ j.dt.date) :
    check_boundary b (some p) n = (.safe, none) := by
  simp only [check_boundary]
  rw [if_neg hp]
  cases n with
  | none => rfl
  | some j =>
    have hj := hn j rfl
    simp [hj]

/-- Witness for C10: a birth at 2011-01-05 23:30 lies 85 minutes — inside
the two-hour window — before the 소한 term at 2011-01-06 00:55, yet the
dates differ, so the status is `safe` with no message. -/
theorem boundary_safe_when_dates_differ_witness :
    check_boundary ⟨2011, 1, 5, 23, 30⟩
        (some ⟨⟨2010, 12, 7, 10, 38⟩, "대설", 255, 10, "KASI"⟩)
        (some ⟨⟨2011, 1, 6, 0, 55⟩, "소한", 285, 11, "KASI"⟩) = (.safe, none) ∧
    minAbsDiff ⟨2011, 1, 6, 0, 55⟩ ⟨2011, 1, 5, 23, 30⟩ ≤ 120 :=
  ⟨boundary_safe_when_dates_differ _ _ _ (by decide)
      (fun j hj => by cases hj; decide),
    by decide⟩

/-! ## Claim C4: critical boundary within two hours of a coinciding term -/

/-- C4: when the birth date coincides with the date of the prior term
(resp. the next term, the prior term's date differing), the status is
`critical` exactly when the absolute time distance to that term is at
most two hours; concretely, a birth one minute before the tabulated
입춘 2024 instant (2024-02-04 17:27 KST) is flagged `critical`, and a
birth exactly three hours before it is flagged `boundary`, not
`critical`. -/
theorem boundary_critical_iff_two_hours :
    (∀ (b : DateTime) (p : Jeolgi) (n : Option Jeolgi), b.date = p.dt.date →
      (((check_boundary b (some p) n).1 = .critical) ↔ minAbsDiff b p.dt ≤ 120)) ∧
    (∀ (b : DateTime) (p n : Jeolgi), b.date ≠ p.dt.date → b.date = n.dt.date →
      (((check_boundary b (some p) (some n)).1 = .critical) ↔ minAbsDiff b n.dt ≤ 120)) ∧
    ((generate_saju_palja ⟨2024, 2, 4, 17, 26⟩ "M").toOption.map (fun r => r.boundaryStatus)
      = some .critical) ∧
    ((generate_saju_palja ⟨2024, 2, 4, 14, 27⟩ "M").toOption.map (fun r => r.boundaryStatus)
      = some .boundary) := by
  refine ⟨?_, ?_, by decide, by decide⟩
  · intro b p n hdate
    simp only [check_boundary]
    rw [if_pos hdate]
    by_cases hd : minAbsDiff b p.dt ≤ 120
    · rw [if_pos hd]
      simpa using hd
    · rw [if_neg hd]
      simp [hd]
  · intro b p n hp hdate
    simp only [check_boundary]
    rw [if_neg hp, if_pos hdate]
    rw [minAbsDiff_comm b n.dt]
    by_cases hd : minAbsDiff n.dt b ≤ 120
    · rw [if_pos hd]
      simpa using hd
    · rw [if_neg hd]
      simp [hd]

/-- Witness for C4 applying the prior-term criterion at the 입춘 2024
coincidence: birth 2024-02-04 18:00 is 33 minutes after the term and is
flagged `critical`. -/
theorem boundary_critical_iff_two_hours_witness :
    (check_boundary ⟨2024, 2, 4, 18, 0⟩
        (some ⟨⟨2024, 2, 4, 17, 27⟩, "입춘", 315, 0, "KASI"⟩) none).1 = .critical :=
  (boundary_critical_iff_two_hours.1 ⟨2024, 2, 4, 18, 0⟩
      ⟨⟨2024, 2, 4, 17, 27⟩, "입춘", 315, 0, "KASI"⟩ none (by decide)).mpr (by decide)

/-! ## Claims C5 and C6: decade cycle -/

/-- The clamp in `_calculate_daewoon` (`0 ↦ 1`, then into `[1, 10]`)
equals a plain clamp of the floor into `[1, 10]`. -/
theorem daewoon_clamp_eq (x : Nat) :
    max 1 (min 10 (if x == 0 then 1 else x)) = max 1 (min 10 x) := by
  by_cases h0 : x = 0
  · simp [h0]
  · simp only [beq_iff_eq, h0, if_false]

/-- C5: the decade-cycle starting age is the floor of the elapsed days
to the reference solar term divided by 3 (computed exactly over minutes
as `minAbsDiff / 4320`), clamped to at least 1 and at most 10. -/
theorem daewoon_su_floor_clamped (yg mg : Ganji) (b : DateTime) (g : String)
    (p n : Option Jeolgi) (rj : Jeolgi)
    (href : (if daewoon_forward yg.stem g then n else p) = some rj)
    (info : DaewoonInfo)
    (h : calculate_daewoon yg mg b g p n = some info) :
    info.daewoonSu = max 1 (min 10 (minAbsDiff rj.dt b / 4320)) := by
  simp only [calculate_daewoon] at h
  rw [href] at h
  injection h with h2
  rw [← h2]
  exact daewoon_clamp_eq _

/-- Witness for C5 at the 2010-05-15 14:30 chart (male, forward): the
reference term is 망종 2010-06-06 02:49 and the starting age comes out as
the clamped floor. -/
theorem daewoon_su_floor_clamped_witness :
    (calculate_daewoon (ganji60 26) ⟨7, 5⟩ ⟨2010, 5, 15, 14, 30⟩ "M"
        (some ⟨⟨2010, 5, 5, 23, 44⟩, "입하", 45, 3, "KASI"⟩)
        (some ⟨⟨2010, 6, 6, 2, 49⟩, "망종", 75, 4, "KASI"⟩)).map
      (fun i => i.daewoonSu)
    = some (max 1 (min 10 (minAbsDiff ⟨2010, 6, 6, 2, 49⟩ ⟨2010, 5, 15, 14, 30⟩ / 4320))) := by
  cases heval : calculate_daewoon (ganji60 26) ⟨7, 5⟩ ⟨2010, 5, 15, 14, 30⟩ "M"
      (some ⟨⟨2010, 5, 5, 23, 44⟩, "입하", 45, 3, "KASI"⟩)
      (some ⟨⟨2010, 6, 6, 2, 49⟩, "망종", 75, 4, "KASI"⟩) with
  | none => exact absurd heval (by decide)
  | some info =>
    rw [Option.map_some']
    rw [daewoon_su_floor_clamped (ganji60 26) ⟨7, 5⟩ ⟨2010, 5, 15, 14, 30⟩ "M"
      (some ⟨⟨2010, 5, 5, 23, 44⟩, "입하", 45, 3, "KASI"⟩)
      (some ⟨⟨2010, 6, 6, 2, 49⟩, "망종", 75, 4, "KASI"⟩)
      ⟨⟨2010, 6, 6, 2, 49⟩, "망종", 75, 4, "KASI"⟩ (by decide) info heval]

/-- C6: the decade-cycle direction is forward exactly for
(yang year-stem, male) or (yin year-stem, female); the reference term is
the next term when forward (prior term ignored, and its absence is only
fatal when backward) and the prior term when backward; and the k-th
decade entry advances the month pillar's stem index by `+(k+1) mod 10`
and branch index by `+(k+1) mod 12` when forward, and by the
corresponding `−(k+1)` steps when backward. -/
theorem daewoon_direction_ref_stepping :
    (∀ (yg mg : Ganji) (b : DateTime) (g : String) (p n : Option Jeolgi)
      (info : DaewoonInfo), calculate_daewoon yg mg b g p n = some info →
      (info.direction = "순행" ↔
        ((isYangStem yg.stem = true ∧ g = "M") ∨ (isYangStem yg.stem = false ∧ g = "F")))) ∧
    (∀ (yg mg : Ganji) (b : DateTime) (g : String) (p : Option Jeolgi) (nj : Jeolgi),
      daewoon_forward yg.stem g = true →
      (calculate_daewoon yg mg b g p (some nj)).map (fun i => i.daewoonSu)
        = some (max 1 (min 10 (minAbsDiff nj.dt b / 4320)))) ∧
    (∀ (yg mg : Ganji) (b : DateTime) (g : String) (p : Option Jeolgi),
      daewoon_forward yg.stem g = true →
      calculate_daewoon yg mg b g p none = none) ∧
    (∀ (yg mg : Ganji) (b : DateTime) (g : String) (pj : Jeolgi) (n : Option Jeolgi),
      daewoon_forward yg.stem g = false →
      (calculate_daewoon yg mg b g (some pj) n).map (fun i => i.daewoonSu)
        = some (max 1 (min 10 (minAbsDiff pj.dt b / 4320)))) ∧
    (∀ (yg mg : Ganji) (b : DateTime) (g : String) (n : Option Jeolgi),
      daewoon_forward yg.stem g = false →
      calculate_daewoon yg mg b g none n = none) ∧
    (∀ (yg mg : Ganji) (b : DateTime) (g : String) (p n : Option Jeolgi)
      (info : DaewoonInfo) (k : Nat), k < 8 →
      daewoon_forward yg.stem g = true →
      calculate_daewoon yg mg b g p n = some info →
      info.entries[k]? = some ⟨info.daewoonSu + 10 * k,
        ⟨(mg.stem + (k + 1)) % 10, (mg.branch + (k + 1)) % 12⟩⟩) ∧
    (∀ (yg mg : Ganji) (b : DateTime) (g : String) (p n : Option Jeolgi)
      (info : DaewoonInfo) (k : Nat), k < 8 →
      daewoon_forward yg.stem g = false →
      calculate_daewoon yg mg b g p n = some info →
      info.entries[k]? = some ⟨info.daewoonSu + 10 * k,
        ⟨(mg.stem + 10 - (k + 1)) % 10, (mg.branch + 12 - (k + 1)) % 12⟩⟩) := by
  refine ⟨?_, ?_, ?_, ?_, ?_, ?_, ?_⟩
  · intro yg mg b g p n info h
    simp only [calculate_daewoon] at h
    cases hf : daewoon_forward yg.stem g
    · rw [hf] at h
      simp only [Bool.false_eq_true, if_false] at h
      cases p with
      | none => simp at h
      | some pj =>
        simp only at h
        injection h with h2
        rw [← h2]
        have hiff : daewoon_forward yg.stem g = true ↔
            ((isYangStem yg.stem = true ∧ g = "M") ∨ (isYangStem yg.stem = false ∧ g = "F")) := by
          simp [daewoon_forward, Bool.or_eq_true, Bool.and_eq_true, beq_iff_eq,
            Bool.not_eq_true']
        rw [hf] at hiff
        simp only [Bool.false_eq_true, false_iff] at hiff
        simpa using hiff
    · rw [hf] at h
      simp only [if_true] at h
      cases n with
      | none => simp at h
      | some nj =>
        simp only at h
        injection h with h2
        rw [← h2]
        have hiff : daewoon_forward yg.stem g = true ↔
            ((isYangStem yg.stem = true ∧ g = "M") ∨ (isYangStem yg.stem = false ∧ g = "F")) := by
          simp [daewoon_forward, Bool.or_eq_true, Bool.and_eq_true, beq_iff_eq,
            Bool.not_eq_true']
        rw [hf] at hiff
        simpa using hiff.mp rfl
  · intro yg mg b g p nj hf
    simp only [calculate_daewoon, hf, if_true]
    rw [Option.map_some']
    exact congrArg some (daewoon_clamp_eq _)
  · intro yg mg b g p hf
    simp [calculate_daewoon, hf]
  · intro yg mg b g pj n hf
    simp only [calculate_daewoon, hf, Bool.false_eq_true, if_false]
    rw [Option.map_some']
    exact congrArg some (daewoon_clamp_eq _)
  · intro yg mg b g n hf
    simp [calculate_daewoon, hf]
  · intro yg mg b g p n info k hk hf h
    simp only [calculate_daewoon, hf, if_true] at h
    cases n with
    | none => simp at h
    | some nj =>
      simp only at h
      injection h with h2
      rw [← h2]
      simp only [List.getElem?_map, List.getElem?_range, hk, if_pos]
      rw [Option.map_some']
      refine congrArg some ?_
      have hage : (k + 1 - 1) * 10 = 10 * k := by omega
      rw [hage]
  · intro yg mg b g p n info k hk hf h
    simp only [calculate_daewoon, hf, Bool.false_eq_true, if_false] at h
    cases p with
    | none => simp at h
    | some pj =>
      simp only at h
      injection h with h2
      rw [← h2]
      simp only [List.getElem?_map, List.getElem?_range, hk, if_pos]
      rw [Option.map_some']
      refine congrArg some ?_
      have hage : (k + 1 - 1) * 10 = 10 * k := by omega
      rw [hage]

/-- Witness for C6: the same 2010 male chart is forward, so the reference
term is the next one (망종) and the daewoon age projection agrees. -/
theorem daewoon_direction_ref_stepping_witness :
    (calculate_daewoon (ganji60 26) ⟨7, 5⟩ ⟨2010, 5, 15, 14, 30⟩ "M"
        (some ⟨⟨2010, 5, 5, 23, 44⟩, "입하", 45, 3, "KASI"⟩)
        (some ⟨⟨2010, 6, 6, 2, 49⟩, "망종", 75, 4, "KASI"⟩)).map
      (fun i => i.daewoonSu)
    = some (max 1 (min 10 (minAbsDiff ⟨2010, 6, 6, 2, 49⟩ ⟨2010, 5, 15, 14, 30⟩ / 4320))) :=
  daewoon_direction_ref_stepping.2.1 (ganji60 26) ⟨7, 5⟩ ⟨2010, 5, 15, 14, 30⟩ "M"
    (some ⟨⟨2010, 5, 5, 23, 44⟩, "입하", 45, 3, "KASI"⟩)
    ⟨⟨2010, 6, 6, 2, 49⟩, "망종", 75, 4, "KASI"⟩ (by decide)

/-! ## Claim C3: year pillar adjusted at 입춘 -/

/-- C3: the calendar year feeding the year pillar is the birth civil
year, reduced by one exactly when the birth instant is strictly before
that civil year's 315° (입춘) term instant; the year pillar is the
60-cycle element at `(adjusted year − 1864) mod 60`. -/
theorem year_pillar_lipchun_adjusted (env : List Jeolgi) (b : DateTime) (g : String)
    (L : Jeolgi)
    (hL : env.find? (fun j => j.degree == 315 && j.dt.year == b.year) = some L)
    (r : SajuResult)
    (h : generate_saju_core env b g = .ok r) :
    r.yearGanji = ganji60 (Int.toNat
      (((if b.toMin < L.dt.toMin then (b.year : Int) - 1 else (b.year : Int)) - 1864) % 60)) := by
  obtain ⟨pj, nj, hpn, hr⟩ := generate_core_ok env b g r h
  subst hr
  simp only [build_result, findLipchun, hL]

/-- Witness for C3: with the 2010 terms, a birth at 2010-01-15 12:00 lies
before 입춘 2010 (2010-02-04 07:48), so the adjusted year is 2009 and the
year pillar is the 60-cycle element at (2009 − 1864) mod 60 = 25 (己丑). -/
theorem year_pillar_lipchun_adjusted_witness :
    (generate_saju_core
        [⟨⟨2010, 1, 5, 19, 9⟩, "소한", 285, 11, "KASI"⟩,
         ⟨⟨2010, 2, 4, 7, 48⟩, "입춘", 315, 0, "KASI"⟩]
        ⟨2010, 1, 15, 12, 0⟩ "M").toOption.map (fun r => r.yearGanji)
      = some (ganji60 25) := by
  cases hev : generate_saju_core
      [⟨⟨2010, 1, 5, 19, 9⟩, "소한", 285, 11, "KASI"⟩,
       ⟨⟨2010, 2, 4, 7, 48⟩, "입춘", 315, 0, "KASI"⟩]
      ⟨2010, 1, 15, 12, 0⟩ "M" with
  | error e =>
    have hok : (generate_saju_core
        [⟨⟨2010, 1, 5, 19, 9⟩, "소한", 285, 11, "KASI"⟩,
         ⟨⟨2010, 2, 4, 7, 48⟩, "입춘", 315, 0, "KASI"⟩]
        ⟨2010, 1, 15, 12, 0⟩ "M").toOption.isSome = true := by decide
    rw [hev] at hok
    simp [Except.toOption] at hok
  | ok r =>
    have hy := year_pillar_lipchun_adjusted
      [⟨⟨2010, 1, 5, 19, 9⟩, "소한", 285, 11, "KASI"⟩,
       ⟨⟨2010, 2, 4, 7, 48⟩, "입춘", 315, 0, "KASI"⟩]
      ⟨2010, 1, 15, 12, 0⟩ "M"
      ⟨⟨2010, 2, 4, 7, 48⟩, "입춘", 315, 0, "KASI"⟩ (by decide) r hev
    simp only [Except.toOption, Option.map_some']
    rw [hy]
    decide

/-! ## Claim C7: 60-cycle parity closure of every produced pillar -/

theorem ganji60_parity (i : Nat) : (ganji60 i).parityOk := by
  simp only [ganji60, Ganji.parityOk]
  omega

theorem yearStemToMonthStemIndex_even (s : Nat) :
    yearStemToMonthStemIndex s % 2 = 0 := by
  unfold yearStemToMonthStemIndex
  split <;> rfl

theorem dayStemToTimeStemStartIndex_even (s : Nat) :
    dayStemToTimeStemStartIndex s % 2 = 0 := by
  unfold dayStemToTimeStemStartIndex
  split <;> rfl

/-- The month pillar built by `build_result` from any year stem and term
month index pairs stem and branch of equal parity. -/
theorem month_pillar_parity (s m : Nat) :
    (Ganji.mk ((yearStemToMonthStemIndex s + m) % 10) ((m + 2) % 12)).parityOk := by
  have he := yearStemToMonthStemIndex_even s
  simp only [Ganji.parityOk]
  omega

theorem shi_pillar_parity (d h : Nat) : (get_shi_ganji d h).parityOk := by
  have he := dayStemToTimeStemStartIndex_even d
  simp only [get_shi_ganji, Ganji.parityOk]
  omega

/-- Every decade entry steps stem and branch of the month pillar by equal
amounts, so parity agreement is preserved. -/
theorem daewoon_entries_parity (yg mg : Ganji) (b : DateTime) (g : String)
    (p n : Option Jeolgi) (info : DaewoonInfo)
    (hmg : mg.parityOk)
    (h : calculate_daewoon yg mg b g p n = some info) :
    ∀ e ∈ info.entries, e.ganji.parityOk := by
  intro e he
  simp only [calculate_daewoon] at h
  cases hf : daewoon_forward yg.stem g <;> rw [hf] at h
  · simp only [Bool.false_eq_true, if_false] at h
    cases p with
    | none => simp at h
    | some pj =>
      simp only at h
      injection h with h2
      rw [← h2] at he
      simp only [List.mem_map, List.mem_range] at he
      obtain ⟨k, hk, hke⟩ := he
      rw [← hke]
      simp only [Ganji.parityOk, Ganji.parityOk] at hmg ⊢
      omega
  · simp only [if_true] at h
    cases n with
    | none => simp at h
    | some nj =>
      simp only at h
      injection h with h2
      rw [← h2] at he
      simp only [List.mem_map, List.mem_range] at he
      obtain ⟨k, hk, hke⟩ := he
      rw [← hke]
      simp only [Ganji.parityOk] at hmg ⊢
      omega

/-- C7: every pillar of a generated chart — year, month, day, hour, and
each decade-cycle entry — has stem index and branch index of equal
parity, i.e. is a member of the 60-element combined cycle. -/
theorem pillars_parity_invariant (env : List Jeolgi) (b : DateTime) (g : String)
    (r : SajuResult) (h : generate_saju_core env b g = .ok r) :
    r.yearGanji.parityOk ∧ r.monthGanji.parityOk ∧ r.dayGanji.parityOk ∧
    r.shiGanji.parityOk ∧
    (∀ info, r.daewoonInfo = some info → ∀ e ∈ info.entries, e.ganji.parityOk) := by
  obtain ⟨pj, nj, hpn, hr⟩ := generate_core_ok env b g r h
  subst hr
  refine ⟨ganji60_parity _, month_pillar_parity _ _, ganji60_parity _,
    shi_pillar_parity _ _, ?_⟩
  intro info hinfo e he
  have hmonth := month_pillar_parity
    (ganji60 (Int.toNat (((match findLipchun env b.year with
      | some lc => if b.toMin < lc.toMin then (b.year : Int) - 1 else (b.year : Int)
      | none => (b.year : Int)) - 1864) % 60))).stem pj.monthIdx
  exact daewoon_entries_parity _ _ b g (some pj) nj info hmonth hinfo e he

/-- Witness for C7 at the concrete 2010 chart used above. -/
theorem pillars_parity_invariant_witness :
    (generate_saju_core
        [⟨⟨2010, 5, 5, 23, 44⟩, "입하", 45, 3, "KASI"⟩,
         ⟨⟨2010, 6, 6, 2, 49⟩, "망종", 75, 4, "KASI"⟩]
        ⟨2010, 5, 15, 14, 30⟩ "M").toOption.map
      (fun r => decide r.yearGanji.parityOk && decide r.monthGanji.parityOk
        && decide r.dayGanji.parityOk && decide r.shiGanji.parityOk)
      = some true := by
  cases hev : generate_saju_core
      [⟨⟨2010, 5, 5, 23, 44⟩, "입하", 45, 3, "KASI"⟩,
       ⟨⟨2010, 6, 6, 2, 49⟩, "망종", 75, 4, "KASI"⟩]
      ⟨2010, 5, 15, 14, 30⟩ "M" with
  | error e =>
    have hok : (generate_saju_core
        [⟨⟨2010, 5, 5, 23, 44⟩, "입하", 45, 3, "KASI"⟩,
         ⟨⟨2010, 6, 6, 2, 49⟩, "망종", 75, 4, "KASI"⟩]
        ⟨2010, 5, 15, 14, 30⟩ "M").toOption.isSome = true := by decide
    rw [hev] at hok
    simp [Except.toOption] at hok
  | ok r =>
    obtain ⟨h1, h2, h3, h4, _⟩ := pillars_parity_invariant
      [⟨⟨2010, 5, 5, 23, 44⟩, "입하", 45, 3, "KASI"⟩,
       ⟨⟨2010, 6, 6, 2, 49⟩, "망종", 75, 4, "KASI"⟩]
      ⟨2010, 5, 15, 14, 30⟩ "M" r hev
    simp [Except.toOption, h1, h2, h3, h4]

/-! ## Claim C1: daylight-saving correction is never applied -/

/-- C1 (code bug): `is_summer_time` classifies 1988-07-01 as a
daylight-saving date, yet the chart pipeline never consults it — for a
birth at 1988-07-01 13:00 the hour pillar is computed from the
unadjusted hour 13 (two-hour segment 7) for every solar-term
environment, whereas the documented one-hour subtraction would compute
it from 12:00 (segment 6), which yields a different hour pillar. -/
theorem summer_time_never_applied :
    is_summer_time ⟨1988, 7, 1, 13, 0⟩ = true ∧
    (∀ (env : List Jeolgi) (g : String) (r : SajuResult),
      generate_saju_core env ⟨1988, 7, 1, 13, 0⟩ g = .ok r →
      r.shiGanji = get_shi_ganji (get_day_ganji ⟨1988, 7, 1, 13, 0⟩).stem 13) ∧
    get_shi_ganji (get_day_ganji ⟨1988, 7, 1, 13, 0⟩).stem 13
      ≠ get_shi_ganji (get_day_ganji ⟨1988, 7, 1, 13, 0⟩).stem 12 := by
  refine ⟨by decide, ?_, by decide⟩
  intro env g r h
  obtain ⟨pj, nj, hpn, hr⟩ := generate_core_ok env ⟨1988, 7, 1, 13, 0⟩ g r h
  subst hr
  rfl

/-- Witness for C1 in a representative 1988 term environment (1988 lies
outside the KASI table; the hour pillar is environment-independent). -/
theorem summer_time_never_applied_witness :
    (generate_saju_core
        [⟨⟨1988, 6, 5, 10, 0⟩, "망종", 75, 4, "astropy"⟩,
         ⟨⟨1988, 7, 7, 2, 0⟩, "소서", 105, 5, "astropy"⟩]
        ⟨1988, 7, 1, 13, 0⟩ "M").toOption.map (fun r => r.shiGanji)
      = some (get_shi_ganji (get_day_ganji ⟨1988, 7, 1, 13, 0⟩).stem 13) := by
  cases hev : generate_saju_core
      [⟨⟨1988, 6, 5, 10, 0⟩, "망종", 75, 4, "astropy"⟩,
       ⟨⟨1988, 7, 7, 2, 0⟩, "소서", 105, 5, "astropy"⟩]
      ⟨1988, 7, 1, 13, 0⟩ "M" with
  | error e =>
    have hok : (generate_saju_core
        [⟨⟨1988, 6, 5, 10, 0⟩, "망종", 75, 4, "astropy"⟩,
         ⟨⟨1988, 7, 7, 2, 0⟩, "소서", 105, 5, "astropy"⟩]
        ⟨1988, 7, 1, 13, 0⟩ "M").toOption.isSome = true := by decide
    rw [hev] at hok
    simp [Except.toOption] at hok
  | ok r =>
    have hs := summer_time_never_applied.2.1
      [⟨⟨1988, 6, 5, 10, 0⟩, "망종", 75, 4, "astropy"⟩,
       ⟨⟨1988, 7, 7, 2, 0⟩, "소서", 105, 5, "astropy"⟩] "M" r hev
    simp [Except.toOption, hs]

/-! ## Claim C2: the sex flag is not validated -/

/-- C2 counterexample: the malformed sex flag "X" is not rejected —
`generate_saju_palja` still produces a chart for it. -/
theorem gender_not_validated_cex :
    (generate_saju_palja ⟨2010, 5, 15, 14, 30⟩ "X").toOption.isSome = true := by
  decide

/-- C2 amended: `generate_saju_palja` performs no sex-flag validation;
a flag outside {"M", "F"} satisfies neither direction condition, so the
chart is produced with a backward (역행) decade cycle. -/
theorem gender_flag_fallthrough_backward (env : List Jeolgi) (b : DateTime)
    (g : String) (hM : g ≠ "M") (hF : g ≠ "F") (r : SajuResult)
    (h : generate_saju_core env b g = .ok r)
    (info : DaewoonInfo) (hinfo : r.daewoonInfo = some info) :
    info.direction = "역행" := by
  obtain ⟨pj, nj, hpn, hr⟩ := generate_core_ok env b g r h
  subst hr
  have h1 : (g == "M") = false := beq_eq_false_iff_ne.mpr hM
  have h2 : (g == "F") = false := beq_eq_false_iff_ne.mpr hF
  have hfwd : ∀ s : Nat, daewoon_forward s g = false := by
    intro s
    simp [daewoon_forward, h1, h2]
  simp only [build_result, calculate_daewoon, hfwd, Bool.false_eq_true, if_false] at hinfo
  injection hinfo with h3
  rw [← h3]

/-- Witness for C2's amended statement: the sex flag "X" at the 2010
chart produces a chart whose decade cycle runs backward. -/
theorem gender_flag_fallthrough_backward_witness :
    (generate_saju_core
        [⟨⟨2010, 5, 5, 23, 44⟩, "입하", 45, 3, "KASI"⟩,
         ⟨⟨2010, 6, 6, 2, 49⟩, "망종", 75, 4, "KASI"⟩]
        ⟨2010, 5, 15, 14, 30⟩ "X").toOption.map
      (fun r => r.daewoonInfo.map (fun i => i.direction))
      = some (some "역행") := by
  cases hev : generate_saju_core
      [⟨⟨2010, 5, 5, 23, 44⟩, "입하", 45, 3, "KASI"⟩,
       ⟨⟨2010, 6, 6, 2, 49⟩, "망종", 75, 4, "KASI"⟩]
      ⟨2010, 5, 15, 14, 30⟩ "X" with
  | error e =>
    have hok : (generate_saju_core
        [⟨⟨2010, 5, 5, 23, 44⟩, "입하", 45, 3, "KASI"⟩,
         ⟨⟨2010, 6, 6, 2, 49⟩, "망종", 75, 4, "KASI"⟩]
        ⟨2010, 5, 15, 14, 30⟩ "X").toOption.isSome = true := by decide
    rw [hev] at hok
    simp [Except.toOption] at hok
  | ok r =>
    cases hinfo : r.daewoonInfo with
    | none =>
      have hsome : (generate_saju_core
          [⟨⟨2010, 5, 5, 23, 44⟩, "입하", 45, 3, "KASI"⟩,
           ⟨⟨2010, 6, 6, 2, 49⟩, "망종", 75, 4, "KASI"⟩]
          ⟨2010, 5, 15, 14, 30⟩ "X").toOption.map
        (fun r => r.daewoonInfo.isSome) = some true := by decide
      rw [hev] at hsome
      simp [Except.toOption, hinfo] at hsome
    | some info =>
      have hdir := gender_flag_fallthrough_backward
        [⟨⟨2010, 5, 5, 23, 44⟩, "입하", 45, 3, "KASI"⟩,
         ⟨⟨2010, 6, 6, 2, 49⟩, "망종", 75, 4, "KASI"⟩]
        ⟨2010, 5, 15, 14, 30⟩ "X" (by decide) (by decide) r hev info hinfo
      simp [Except.toOption, hinfo, hdir]

end Saju2026
